import Mathlib

/-!
Shallow embedding of the convex-solidjs query and mutation facades
(src/dist/index.jsx; the alternative revision lives in src/unnamed/part_000),
together with theorems settling the specification claims about the result
reconciler, the resource loader fallback chain, the live subscription
callbacks and the mutation and action facades.

Values of none model the JavaScript undefined throughout.
-/

namespace ConvexSolid

variable {V E A : Type}

/-- A JavaScript Error value, reduced to its message, the only field the
facade reads or constructs. -/
structure JsError where
  message : String
deriving DecidableEq, Repr

/-- A JavaScript value as seen by the error normalization in useMutation and
useAction: either an instance of Error, or some other value carried here
together with its String coercion. -/
inductive JsValue where
  | errObj : JsError → JsValue
  | other : String → JsValue
deriving DecidableEq, Repr

/-- Translation of the normalization at src/dist/index.jsx line 132:
a caught value that is an Error is kept, any other value v is wrapped as a
fresh Error whose message is the String coercion of v. -/
def normalizeError : JsValue → JsError
  | .errObj e => e
  | .other s => { message := s }

/-- The Live Slot: the three signals liveData, liveError and hasReceivedData
of useQuery (src/dist/index.jsx lines 47 to 49). -/
structure LiveSlot (V E : Type) where
  data : Option V
  error : Option E
  hasReceivedData : Bool
deriving DecidableEq, Repr

/-- Initial Live Slot: both signals start undefined and the flag starts
false (src/dist/index.jsx lines 47 to 49). -/
def initLive (V E : Type) : LiveSlot V E :=
  { data := none, error := none, hasReceivedData := false }

/-- One push delivery on the subscription channel: either the success
callback or the error callback handed to client.onUpdate fires. -/
inductive LiveEvent (V E : Type) where
  | dataEv : V → LiveEvent V E
  | errorEv : E → LiveEvent V E
deriving DecidableEq, Repr

/-- Translation of the two onUpdate callbacks at src/dist/index.jsx lines
81 to 94. Each callback runs inside batch, so each is one indivisible state
transition: the success callback stores the value, clears the error and sets
the flag; the error callback stores the error, clears the data and sets the
flag. -/
def applyEvent : LiveSlot V E → LiveEvent V E → LiveSlot V E
  | _, .dataEv d => { data := some d, error := none, hasReceivedData := true }
  | _, .errorEv e => { data := none, error := some e, hasReceivedData := true }

/-- The Live Slot reached after a sequence of subscription callbacks. -/
def runEvents (s : LiveSlot V E) (evs : List (LiveEvent V E)) : LiveSlot V E :=
  evs.foldl applyEvent s

/-- The options record accepted by useQuery; every field is optional. -/
structure QueryOptions (V : Type) where
  enabled : Option Bool
  initialData : Option V
  keepPreviousData : Option Bool
deriving DecidableEq, Repr

/-- JavaScript truthiness of an optional boolean option field: only the
value true is truthy; false and undefined are falsy. -/
def truthyBoolOpt : Option Bool → Bool
  | some true => true
  | _ => false

/-- JavaScript truthiness of an optional value, given a truthiness function
for the value type; undefined is falsy. -/
def truthyOpt (truthy : V → Bool) : Option V → Bool
  | some v => truthy v
  | none => false

/-- The Load Slot owned by the resource loader. The async resource is an
external collaborator; its observable state is the contract stated in the
spec: a current value, an error, a loading flag, and latest, the last
successfully settled value retained across re-executions. The memos of
src/dist/index.jsx read resource(), resource.error, resource.loading and
resource.latest, which map to the four fields here. -/
structure LoadSlot (V E : Type) where
  value : Option V
  error : Option E
  loading : Bool
  latest : Option V
deriving DecidableEq, Repr

/-- Translation of the data memo at src/dist/index.jsx lines 99 to 107: a
defined live value wins; otherwise, when keepPreviousData is truthy and
resource.latest is truthy, resource.latest is returned; otherwise the
current resource value is returned. -/
def dataMemo (truthy : V → Bool) (live : LiveSlot V E) (load : LoadSlot V E)
    (opts : QueryOptions V) : Option V :=
  match live.data with
  | some d => some d
  | none =>
    if truthyBoolOpt opts.keepPreviousData && truthyOpt truthy load.latest then
      load.latest
    else
      load.value

/-- Statement of claim C1 rendered literally as a function, for comparison
with dataMemo: the branch returning latest additionally requires a run to be
in flight, and requires latest to exist rather than to be truthy. -/
def dataSpecC1 (live : LiveSlot V E) (load : LoadSlot V E)
    (opts : QueryOptions V) : Option V :=
  match live.data with
  | some d => some d
  | none =>
    if truthyBoolOpt opts.keepPreviousData && load.loading && load.latest.isSome then
      load.latest
    else
      load.value

/-- Translation of the error memo at src/dist/index.jsx line 108: the live
error, and otherwise the resource error. -/
def errorMemo (live : LiveSlot V E) (load : LoadSlot V E) : Option E :=
  match live.error with
  | some e => some e
  | none => load.error

/-- Translation of the isLoading memo at src/dist/index.jsx line 109:
resource.loading while the live data is undefined. -/
def isLoadingMemo (live : LiveSlot V E) (load : LoadSlot V E) : Bool :=
  load.loading && live.data.isNone

/-- Translation of the isStale memo at src/dist/index.jsx lines 110 to 114:
keepPreviousData truthy, a run in flight, resource.latest truthy, and the
reconciled data equal to resource.latest. -/
def isStaleMemo (truthy : V → Bool) (live : LiveSlot V E) (load : LoadSlot V E)
    (opts : QueryOptions V) [DecidableEq V] : Bool :=
  truthyBoolOpt opts.keepPreviousData && load.loading &&
    truthyOpt truthy load.latest &&
    decide (dataMemo truthy live load opts = load.latest)

/-- Statement of claim C7 rendered literally as a function, for comparison
with isStaleMemo: it requires latest to exist rather than to be truthy. -/
def isStaleSpecC7 (truthy : V → Bool) (live : LiveSlot V E) (load : LoadSlot V E)
    (opts : QueryOptions V) [DecidableEq V] : Bool :=
  truthyBoolOpt opts.keepPreviousData && load.loading && load.latest.isSome &&
    decide (dataMemo truthy live load opts = load.latest)

/-- Environment of one run of the resource fetcher. cacheRead models the
synchronous localQueryResult call: none is a read that throws, some r is a
read returning r, where r itself can be undefined. netResult and httpResult
are the settlements of the two asynchronous queries, should the run reach
them. -/
structure FetchEnv (V E : Type) where
  isServer : Bool
  hasHttpClient : Bool
  cacheRead : Option (Option V)
  netResult : Except E V
  httpResult : Except E V
deriving Repr

/-- Outcome of one fetcher run: the settled result (an error models a
rejection of the run) and whether the run issued an actual network query. -/
structure FetchOutcome (V E : Type) where
  result : Except E (Option V)
  usedNetwork : Bool
deriving Repr

/-- The defined synchronous cache result, when the cache read neither threw
nor returned undefined. -/
def cacheHit (env : FetchEnv V E) : Option V :=
  match env.cacheRead with
  | some (some r) => some r
  | _ => none

/-- Translation of the resource fetcher at src/dist/index.jsx lines 56 to
73: on the server a configured initialData is returned at once, else the
http client is queried; on the client, a defined synchronous cache result
wins and a throwing cache read is swallowed, then initialData applies while
no live update has been received, and otherwise the network is queried,
its rejection becoming the error of the run. -/
def fetcher (env : FetchEnv V E) (opts : QueryOptions V) (hrd : Bool) :
    FetchOutcome V E :=
  if env.isServer && opts.initialData.isSome then
    { result := .ok opts.initialData, usedNetwork := false }
  else if env.isServer && env.hasHttpClient then
    { result := Except.map some env.httpResult, usedNetwork := true }
  else
    match env.cacheRead with
    | some (some r) => { result := .ok (some r), usedNetwork := false }
    | _ =>
      if opts.initialData.isSome && !hrd then
        { result := .ok opts.initialData, usedNetwork := false }
      else
        { result := Except.map some env.netResult, usedNetwork := true }

/-- Translation of the resource key function at src/dist/index.jsx lines 51
to 55: the sentinel null when options disable the query, so the loader does
not execute, and otherwise the current arguments. -/
def keySource (opts : QueryOptions V) (args : A) : Option A :=
  if opts.enabled = some false then none else some args

/-- Facade state carried across a change of arguments or enablement: the
two slots plus the identity of the currently active subscription, if any. -/
structure QueryState (A V E : Type) where
  live : LiveSlot V E
  load : LoadSlot V E
  subscription : Option A
deriving Repr

/-- Translation of the subscription effect at src/dist/index.jsx lines 75
to 97 together with the scoped cleanup contract of the reactive runtime:
when the tracked pair of arguments and enablement changes, the cleanup of
the previous run tears the prior subscription down, then the body returns
early without subscribing when enabled is false and otherwise subscribes to
the new arguments. The live signals are not written by this effect. -/
def subscriptionEffect (s : QueryState A V E) (args : A)
    (enabled : Option Bool) : QueryState A V E :=
  if enabled = some false then
    { s with subscription := none }
  else
    { s with subscription := some args }

/-- Model of the manual refetch handed out at src/dist/index.jsx line 50:
per the async resource contract it re-invokes the fetcher with the current,
unchanged source key. The pair returned is the key used and the outcome of
the re-executed run. -/
def refetchRun (env : FetchEnv V E) (opts : QueryOptions V) (args : A)
    (hrd : Bool) : Option A × FetchOutcome V E :=
  (keySource opts args, fetcher env opts hrd)

/-- State of the useMutation and useAction facades (src/dist/index.jsx
lines 122 to 124): the single signal holding data, error and isLoading. -/
structure MutationState (V : Type) where
  data : Option V
  error : Option JsError
  isLoading : Bool
deriving DecidableEq, Repr

/-- Initial mutation state (src/dist/index.jsx line 122): only isLoading,
set to false. -/
def initMut (V : Type) : MutationState V :=
  { data := none, error := none, isLoading := false }

/-- Translation of mutateAsync at src/dist/index.jsx lines 125 to 136 as a
function of the settlement of the underlying client call: on success the
state stores the result with isLoading false and the promise resolves with
the result; on rejection with v the state stores the normalized Error with
isLoading false and the promise rejects with that same normalized Error. -/
def mutateAsyncRun (call : Except JsValue V) :
    MutationState V × Except JsError V :=
  match call with
  | .ok r => ({ data := some r, error := none, isLoading := false }, .ok r)
  | .error v =>
    ({ data := none, error := some (normalizeError v), isLoading := false },
      .error (normalizeError v))

/-- Translation of executeAsync at src/dist/index.jsx lines 155 to 166; the
body is identical to mutateAsync with the action client call in place of
the mutation client call. -/
def executeAsyncRun (call : Except JsValue V) :
    MutationState V × Except JsError V :=
  match call with
  | .ok r => ({ data := some r, error := none, isLoading := false }, .ok r)
  | .error v =>
    ({ data := none, error := some (normalizeError v), isLoading := false },
      .error (normalizeError v))

/-- The callable part of the record returned by useMutation and useAction. -/
structure MutationFacade (V : Type) where
  mutate : Except JsValue V → MutationState V × Except JsError V
  mutateAsync : Except JsValue V → MutationState V × Except JsError V

/-- Translation of the record returned at src/dist/index.jsx lines 138 to
145: both fields are the very same mutateAsync function. -/
def useMutationFacade (V : Type) : MutationFacade V :=
  { mutate := mutateAsyncRun, mutateAsync := mutateAsyncRun }

/-- Translation of the record returned at src/dist/index.jsx lines 168 to
175: both fields are the very same executeAsync function. -/
def useActionFacade (V : Type) : MutationFacade V :=
  { mutate := executeAsyncRun, mutateAsync := executeAsyncRun }

/-- One observable transition of a mutation or action facade: a new call
starts (src/dist/index.jsx line 126), the call settles successfully (line
129), the call rejects (lines 131 to 133), or reset is called (line 137). -/
inductive MutEvent (V : Type) where
  | start : MutEvent V
  | completeOk : V → MutEvent V
  | completeErr : JsValue → MutEvent V
  | reset : MutEvent V
deriving Repr

/-- The state written by each transition; every setState call of the source
replaces the state record wholesale, so omitted fields become undefined. -/
def mutStep : MutationState V → MutEvent V → MutationState V
  | _, .start => { data := none, error := none, isLoading := true }
  | _, .completeOk r => { data := some r, error := none, isLoading := false }
  | _, .completeErr v =>
    { data := none, error := some (normalizeError v), isLoading := false }
  | _, .reset => { data := none, error := none, isLoading := false }

/-- The mutation state reached after a sequence of transitions. -/
def runMutEvents (s : MutationState V) (evs : List (MutEvent V)) :
    MutationState V :=
  evs.foldl mutStep s

/-- State invariant of claim C10 as one boolean: data and error are never
both defined, and while isLoading neither data nor error is defined. -/
def mutInvB (s : MutationState V) : Bool :=
  !(s.data.isSome && s.error.isSome) &&
    !(s.isLoading && (s.data.isSome || s.error.isSome))

/-- JavaScript truthiness of an integer: zero is falsy. Used to instantiate
value truthiness in concrete states. -/
def truthyInt (v : Int) : Bool :=
  v != 0

end ConvexSolid

namespace ConvexSolid

/-- C1. Counterexample to the claimed in-flight condition: with no live
data, keepPreviousData enabled, no run in flight, an undefined load value
and latest equal to 1 (a state reached when a run settles with 1 and a
later refetch rejects), the code returns 1 while the claim, rendered
literally by dataSpecC1, returns the undefined load value. -/
theorem c1_counterexample :
    dataMemo truthyInt
        ({ data := none, error := none, hasReceivedData := true } :
          LiveSlot Int String)
        { value := none, error := some "refetch rejected", loading := false,
          latest := some 1 }
        { enabled := none, initialData := none, keepPreviousData := some true }
      = some 1 ∧
    dataSpecC1
        ({ data := none, error := none, hasReceivedData := true } :
          LiveSlot Int String)
        { value := none, error := some "refetch rejected", loading := false,
          latest := some 1 }
        { enabled := none, initialData := none, keepPreviousData := some true }
      = none := by
  exact ⟨rfl, rfl⟩

/-- C1 amended: a defined Live Slot value always wins; otherwise, when
keepPreviousData is truthy and latest holds a truthy value, data equals
latest whether or not a run is in flight; otherwise data equals the current
Load Slot value. -/
theorem c1_data_precedence (truthy : V → Bool) (live : LiveSlot V E)
    (load : LoadSlot V E) (opts : QueryOptions V) :
    (∀ d, live.data = some d → dataMemo truthy live load opts = some d) ∧
    (live.data = none → truthyBoolOpt opts.keepPreviousData = true →
      truthyOpt truthy load.latest = true →
      dataMemo truthy live load opts = load.latest) ∧
    (live.data = none →
      (truthyBoolOpt opts.keepPreviousData = false ∨
        truthyOpt truthy load.latest = false) →
      dataMemo truthy live load opts = load.value) := by
  refine ⟨fun d h => ?_, fun h hk hl => ?_, fun h hor => ?_⟩
  · unfold dataMemo
    rw [h]
  · unfold dataMemo
    rw [h]
    simp [hk, hl]
  · unfold dataMemo
    rw [h]
    rcases hor with hk | hl
    · simp [hk]
    · simp [hl]

/-- C1 witness: each branch of the amended precedence evaluated at a
concrete state. -/
theorem c1_witness :
    dataMemo truthyInt
        ({ data := some 7, error := none, hasReceivedData := true } :
          LiveSlot Int String)
        { value := some 2, error := none, loading := true, latest := some 3 }
        { enabled := none, initialData := none, keepPreviousData := some true }
      = some 7 ∧
    dataMemo truthyInt
        ({ data := none, error := none, hasReceivedData := true } :
          LiveSlot Int String)
        { value := none, error := none, loading := true, latest := some 3 }
        { enabled := none, initialData := none, keepPreviousData := some true }
      = some 3 ∧
    dataMemo truthyInt
        ({ data := none, error := none, hasReceivedData := false } :
          LiveSlot Int String)
        { value := some 4, error := none, loading := false, latest := some 3 }
        { enabled := none, initialData := none, keepPreviousData := none }
      = some 4 := by
  refine ⟨(c1_data_precedence truthyInt _ _ _).1 7 rfl, ?_, ?_⟩
  · exact (c1_data_precedence truthyInt _ _ _).2.1 rfl rfl rfl
  · exact (c1_data_precedence truthyInt _ _ _).2.2 rfl (Or.inl rfl)

/-- C3: isLoading is true exactly when the load run is in flight and the
Live Slot holds no defined data; moreover, after the success callback has
delivered any value, isLoading is false even while the run is still in
flight. -/
theorem c3_isLoading (live : LiveSlot V E) (load : LoadSlot V E) :
    (isLoadingMemo live load = true ↔
      load.loading = true ∧ live.data = none) ∧
    (∀ (d : V) (s : LiveSlot V E),
      isLoadingMemo (applyEvent s (.dataEv d)) load = false) := by
  constructor
  · simp [isLoadingMemo, Option.isNone_iff_eq_none]
  · intro d s
    simp [isLoadingMemo, applyEvent]

/-- C3 witness: a state with the run in flight and no live data is loading,
and delivering live data 5 during the same in-flight run ends loading. -/
theorem c3_witness :
    isLoadingMemo (initLive Int String)
        { value := none, error := none, loading := true, latest := none }
      = true ∧
    isLoadingMemo (applyEvent (initLive Int String) (.dataEv 5))
        { value := none, error := none, loading := true, latest := none }
      = false := by
  refine ⟨(c3_isLoading _ _).1.mpr ⟨rfl, rfl⟩,
    (c3_isLoading (initLive Int String) _).2 5 (initLive Int String)⟩

/-- C4. Counterexample to the final clause of the claim: after the
subscription delivers the error E the effective error is E, but the
effective data is 3, not undefined, because the loader had settled with 3
and the reconciler falls back to the Load Slot. -/
theorem c4_counterexample :
    errorMemo (applyEvent (initLive Int String) (.errorEv "E"))
        { value := some 3, error := none, loading := false, latest := none }
      = some "E" ∧
    dataMemo truthyInt (applyEvent (initLive Int String) (.errorEv "E"))
        { value := some 3, error := none, loading := false, latest := none }
        { enabled := none, initialData := none, keepPreviousData := none }
      = some 3 := by
  exact ⟨rfl, rfl⟩

/-- C4 amended: a Live Slot error always takes precedence and otherwise the
Load Slot error is surfaced; after the error callback delivers e the
effective error is e and the live data is cleared, the effective data then
being the Load Slot projection, which is undefined only when that
projection is. -/
theorem c4_error_precedence (truthy : V → Bool) (live : LiveSlot V E)
    (load : LoadSlot V E) (opts : QueryOptions V) :
    (∀ e, live.error = some e → errorMemo live load = some e) ∧
    (live.error = none → errorMemo live load = load.error) ∧
    (∀ (e : E) (s : LiveSlot V E),
      errorMemo (applyEvent s (.errorEv e)) load = some e ∧
      (applyEvent s (.errorEv e)).data = none ∧
      dataMemo truthy (applyEvent s (.errorEv e)) load opts =
        (if truthyBoolOpt opts.keepPreviousData &&
            truthyOpt truthy load.latest then load.latest
          else load.value)) := by
  refine ⟨fun e h => ?_, fun h => ?_, fun e s => ⟨rfl, rfl, rfl⟩⟩
  · unfold errorMemo
    rw [h]
  · unfold errorMemo
    rw [h]

/-- C4 witness: the precedence conjuncts evaluated at concrete states. -/
theorem c4_witness :
    errorMemo
        ({ data := none, error := some "live", hasReceivedData := true } :
          LiveSlot Int String)
        { value := none, error := some "load", loading := false, latest := none }
      = some "live" ∧
    errorMemo
        ({ data := none, error := none, hasReceivedData := true } :
          LiveSlot Int String)
        { value := none, error := some "load", loading := false, latest := none }
      = some "load" := by
  refine ⟨?_, ?_⟩
  · exact (c4_error_precedence truthyInt _ _
      { enabled := none, initialData := none, keepPreviousData := none }).1
      "live" rfl
  · exact (c4_error_precedence truthyInt _ _
      { enabled := none, initialData := none, keepPreviousData := none }).2.1 rfl

/-- C7. Counterexample to the claimed existence condition on latest: with
live data 0 delivered, latest equal to 0 from an earlier completed run, a
new run in flight and keepPreviousData enabled, every condition of the
claim holds, 0 being a defined latest equal to the effective data, yet the
code evaluates the latest truthiness and reports isStale false. -/
theorem c7_counterexample :
    isStaleSpecC7 truthyInt
        ({ data := some 0, error := none, hasReceivedData := true } :
          LiveSlot Int String)
        { value := none, error := none, loading := true, latest := some 0 }
        { enabled := none, initialData := none, keepPreviousData := some true }
      = true ∧
    isStaleMemo truthyInt
        ({ data := some 0, error := none, hasReceivedData := true } :
          LiveSlot Int String)
        { value := none, error := none, loading := true, latest := some 0 }
        { enabled := none, initialData := none, keepPreviousData := some true }
      = false := by
  exact ⟨rfl, rfl⟩

/-- C7 amended: isStale is true exactly when keepPreviousData is truthy, a
run is in flight, latest holds a truthy value, and the effective data
equals latest. -/
theorem c7_isStale (truthy : V → Bool) [DecidableEq V] (live : LiveSlot V E)
    (load : LoadSlot V E) (opts : QueryOptions V) :
    isStaleMemo truthy live load opts = true ↔
      (truthyBoolOpt opts.keepPreviousData = true ∧ load.loading = true ∧
        truthyOpt truthy load.latest = true ∧
        dataMemo truthy live load opts = load.latest) := by
  simp [isStaleMemo, and_assoc]

/-- C7 witness: a state with keepPreviousData on, a run in flight, truthy
latest 5 and effective data 5 is stale. -/
theorem c7_witness :
    isStaleMemo truthyInt
        ({ data := none, error := none, hasReceivedData := true } :
          LiveSlot Int String)
        { value := none, error := none, loading := true, latest := some 5 }
        { enabled := none, initialData := none, keepPreviousData := some true }
      = true := by
  exact (c7_isStale truthyInt _ _ _).mpr ⟨rfl, rfl, rfl, rfl⟩

end ConvexSolid

namespace ConvexSolid

/-- C2: the fallback chain of the resource fetcher, in order, first
applicable result winning: a server run with configured initialData
returns it at once without network; on the client a defined synchronous
cache result wins without network; a throwing cache read is
indistinguishable from a read with no result, never a loader error; with
no defined cache result, configured initialData applies while no live
update has been received; otherwise the network is queried and its
rejection is the error of the run. -/
theorem c2_fallback_chain (env : FetchEnv V E) (opts : QueryOptions V)
    (hrd : Bool) :
    (env.isServer = true → opts.initialData.isSome = true →
      fetcher env opts hrd =
        { result := .ok opts.initialData, usedNetwork := false }) ∧
    (env.isServer = false → ∀ r, env.cacheRead = some (some r) →
      fetcher env opts hrd =
        { result := .ok (some r), usedNetwork := false }) ∧
    (env.isServer = false → env.cacheRead = none →
      fetcher env opts hrd =
        fetcher { env with cacheRead := some none } opts hrd) ∧
    (env.isServer = false → cacheHit env = none →
      opts.initialData.isSome = true → hrd = false →
      fetcher env opts hrd =
        { result := .ok opts.initialData, usedNetwork := false }) ∧
    (env.isServer = false → cacheHit env = none →
      (opts.initialData = none ∨ hrd = true) →
      fetcher env opts hrd =
        { result := Except.map some env.netResult, usedNetwork := true }) := by
  refine ⟨fun hS hI => ?_, fun hS r hc => ?_, fun hS hc => ?_,
    fun hS hch hI hh => ?_, fun hS hch hor => ?_⟩
  · simp [fetcher, hS, hI]
  · simp [fetcher, hS, hc]
  · simp [fetcher, hS, hc]
  · rcases hc2 : env.cacheRead with _ | r
    · simp [fetcher, hS, hc2, hI, hh]
    · rcases r with _ | v
      · simp [fetcher, hS, hc2, hI, hh]
      · simp [cacheHit, hc2] at hch
  · rcases hc2 : env.cacheRead with _ | r
    · rcases hor with hi | hh
      · simp [fetcher, hS, hc2, hi]
      · simp [fetcher, hS, hc2, hh]
    · rcases r with _ | v
      · rcases hor with hi | hh
        · simp [fetcher, hS, hc2, hi]
        · simp [fetcher, hS, hc2, hh]
      · simp [cacheHit, hc2] at hch

/-- C2 witness: every step of the chain exercised at concrete runs: the
server initialData fast path, a client cache hit, the equivalence of a
throwing cache read with an undefined cache read, the client initialData
step before any live update, and the final network step. -/
theorem c2_witness :
    fetcher
      ({ isServer := true, hasHttpClient := true, cacheRead := none,
         netResult := .ok 1, httpResult := .ok 2 } : FetchEnv Int String)
      { enabled := none, initialData := some 0, keepPreviousData := none }
      false
      = { result := .ok (some 0), usedNetwork := false } ∧
    fetcher
      ({ isServer := false, hasHttpClient := false,
         cacheRead := some (some 5), netResult := .ok 1, httpResult := .ok 2 } :
         FetchEnv Int String)
      { enabled := none, initialData := none, keepPreviousData := none }
      false
      = { result := .ok (some 5), usedNetwork := false } ∧
    fetcher
      ({ isServer := false, hasHttpClient := false, cacheRead := none,
         netResult := .ok 1, httpResult := .ok 2 } : FetchEnv Int String)
      { enabled := none, initialData := none, keepPreviousData := none }
      false
      = fetcher
          ({ isServer := false, hasHttpClient := false,
             cacheRead := some none, netResult := .ok 1, httpResult := .ok 2 } :
             FetchEnv Int String)
          { enabled := none, initialData := none, keepPreviousData := none }
          false ∧
    fetcher
      ({ isServer := false, hasHttpClient := false, cacheRead := some none,
         netResult := .ok 1, httpResult := .ok 2 } : FetchEnv Int String)
      { enabled := none, initialData := some 0, keepPreviousData := none }
      false
      = { result := .ok (some 0), usedNetwork := false } ∧
    fetcher
      ({ isServer := false, hasHttpClient := false, cacheRead := some none,
         netResult := .error "net down", httpResult := .ok 2 } :
         FetchEnv Int String)
      { enabled := none, initialData := none, keepPreviousData := none }
      false
      = { result := .error "net down", usedNetwork := true } := by
  refine ⟨(c2_fallback_chain _ _ _).1 rfl rfl,
    (c2_fallback_chain _ _ _).2.1 rfl 5 rfl,
    (c2_fallback_chain
      ({ isServer := false, hasHttpClient := false, cacheRead := none,
         netResult := .ok 1, httpResult := .ok 2 } : FetchEnv Int String)
      { enabled := none, initialData := none, keepPreviousData := none }
      false).2.2.1 rfl rfl,
    (c2_fallback_chain _ _ _).2.2.2.1 rfl rfl rfl rfl,
    (c2_fallback_chain _ _ _).2.2.2.2 rfl rfl (Or.inl rfl)⟩

/-- C5: when the options disable the query the key function returns the
sentinel so the loader does not execute, and after the tracked pair changes
the effect leaves no active subscription, the prior one having been torn
down by its scoped cleanup, while both the Live Slot and the Load Slot are
left as previously observed. -/
theorem c5_disabled (s : QueryState A V E) (opts : QueryOptions V) (args : A)
    (h : opts.enabled = some false) :
    keySource opts args = (none : Option A) ∧
    (subscriptionEffect s args opts.enabled).subscription = none ∧
    (subscriptionEffect s args opts.enabled).live = s.live ∧
    (subscriptionEffect s args opts.enabled).load = s.load := by
  refine ⟨?_, ?_, ?_, ?_⟩ <;> simp [keySource, subscriptionEffect, h]

/-- C5 witness: a facade that had a subscription for arguments 1 and live
data 9 is disabled; the key is the sentinel, the subscription is gone and
the live data 9 is retained. -/
theorem c5_witness :
    keySource
      ({ enabled := some false, initialData := none,
         keepPreviousData := none } : QueryOptions Int) (3 : Nat) = none ∧
    (subscriptionEffect
        ({ live := { data := some 9, error := none, hasReceivedData := true },
           load := { value := none, error := none, loading := false,
                     latest := none },
           subscription := some 1 } : QueryState Nat Int String)
        3 (some false)).subscription = none ∧
    (subscriptionEffect
        ({ live := { data := some 9, error := none, hasReceivedData := true },
           load := { value := none, error := none, loading := false,
                     latest := none },
           subscription := some 1 } : QueryState Nat Int String)
        3 (some false)).live =
      { data := some 9, error := none, hasReceivedData := true } := by
  have h := c5_disabled
    ({ live := { data := some 9, error := none, hasReceivedData := true },
       load := { value := none, error := none, loading := false,
                 latest := none },
       subscription := some 1 } : QueryState Nat Int String)
    { enabled := some false, initialData := none, keepPreviousData := none }
    3 rfl
  exact ⟨h.1, h.2.1, h.2.2.1⟩

/-- Exclusivity of the live data and error fields is preserved by every
callback, hence by every callback sequence. -/
theorem runEvents_exclusive (s : LiveSlot V E) (l : List (LiveEvent V E))
    (h : (s.data.isSome && s.error.isSome) = false) :
    ((runEvents s l).data.isSome && (runEvents s l).error.isSome) = false := by
  induction l generalizing s with
  | nil => simpa [runEvents] using h
  | cons e t ih =>
    have h1 : runEvents s (e :: t) = runEvents (applyEvent s e) t := rfl
    rw [h1]
    apply ih
    cases e <;> simp [applyEvent]

/-- The flag after a callback sequence: it is set exactly when it was
already set or at least one callback fired. -/
theorem runEvents_flag (s : LiveSlot V E) (l : List (LiveEvent V E)) :
    (runEvents s l).hasReceivedData = (s.hasReceivedData || !l.isEmpty) := by
  induction l generalizing s with
  | nil => simp [runEvents]
  | cons e t ih =>
    have h1 : runEvents s (e :: t) = runEvents (applyEvent s e) t := rfl
    rw [h1, ih]
    cases e <;> simp [applyEvent]

/-- C6: each callback is one indivisible transition writing the whole Live
Slot, the success callback storing the value and clearing the error and the
error callback storing the error and clearing the data; along every
callback sequence from the initial slot the data and error are never both
defined at any instant; and hasReceivedData starts false and is set exactly
when at least one callback of either kind has fired, hence it stays true
once true. -/
theorem c6_live_slot_invariant {V E : Type} :
    ((initLive V E).hasReceivedData = false) ∧
    (∀ (s : LiveSlot V E) (d : V),
      applyEvent s (.dataEv d) =
        { data := some d, error := none, hasReceivedData := true }) ∧
    (∀ (s : LiveSlot V E) (e : E),
      applyEvent s (.errorEv e) =
        { data := none, error := some e, hasReceivedData := true }) ∧
    (∀ (evs : List (LiveEvent V E)) (n : Nat),
      ((runEvents (initLive V E) (evs.take n)).data.isSome &&
        (runEvents (initLive V E) (evs.take n)).error.isSome) = false) ∧
    (∀ (s : LiveSlot V E) (evs : List (LiveEvent V E)),
      (runEvents s evs).hasReceivedData =
        (s.hasReceivedData || !evs.isEmpty)) := by
  exact ⟨rfl, fun s d => rfl, fun s e => rfl,
    fun evs n => runEvents_exclusive _ _ rfl,
    fun s evs => runEvents_flag s evs⟩

/-- C8. Counterexample to the claimed unconditional network pass: a
re-execution for the unchanged key against a cache holding 5 settles with
the cached 5 and issues no network query at all. -/
theorem c8_counterexample :
    (fetcher
      ({ isServer := false, hasHttpClient := false,
         cacheRead := some (some 5), netResult := .ok 9, httpResult := .ok 9 } :
         FetchEnv Int String)
      { enabled := none, initialData := none, keepPreviousData := none }
      true).usedNetwork = false ∧
    (fetcher
      ({ isServer := false, hasHttpClient := false,
         cacheRead := some (some 5), netResult := .ok 9, httpResult := .ok 9 } :
         FetchEnv Int String)
      { enabled := none, initialData := none, keepPreviousData := none }
      true).result = .ok (some 5) := by
  exact ⟨rfl, rfl⟩

/-- C8 amended: refetch re-invokes the loader with the key unchanged and
re-runs the fallback chain; on the client the run issues an actual network
query exactly when no defined cache result exists and the initialData step
does not apply. -/
theorem c8_refetch (env : FetchEnv V E) (opts : QueryOptions V) (args : A)
    (hrd : Bool) :
    (refetchRun env opts args hrd).1 = keySource opts args ∧
    (refetchRun env opts args hrd).2 = fetcher env opts hrd ∧
    (env.isServer = false →
      ((fetcher env opts hrd).usedNetwork = true ↔
        (cacheHit env = none ∧ (opts.initialData = none ∨ hrd = true)))) := by
  refine ⟨rfl, rfl, fun hS => ?_⟩
  rcases hc : env.cacheRead with _ | r
  · rcases hi : opts.initialData with _ | d
    · simp [fetcher, hS, hc, cacheHit, hi]
    · cases hrd
      · simp [fetcher, hS, hc, cacheHit, hi]
      · simp [fetcher, hS, hc, cacheHit, hi]
  · rcases r with _ | v
    · rcases hi : opts.initialData with _ | d
      · simp [fetcher, hS, hc, cacheHit, hi]
      · cases hrd
        · simp [fetcher, hS, hc, cacheHit, hi]
        · simp [fetcher, hS, hc, cacheHit, hi]
    · simp [fetcher, hS, hc, cacheHit]

/-- C8 witness: with no cache answer and no initialData, the re-executed
run for the unchanged key does query the network. -/
theorem c8_witness :
    (fetcher
      ({ isServer := false, hasHttpClient := false,
         cacheRead := some none, netResult := .ok 9, httpResult := .ok 9 } :
         FetchEnv Int String)
      { enabled := none, initialData := none, keepPreviousData := none }
      false).usedNetwork = true := by
  exact ((c8_refetch _ _ (0 : Nat) _).2.2 rfl).mpr ⟨rfl, Or.inl rfl⟩

/-- C9: the mutation and action facades hand out the very same function as
mutate and mutateAsync; a successful call stores the result with isLoading
false and resolves with the result; a rejected call stores the normalized
Error with isLoading false and rejects with that same normalized Error; and
normalization keeps an Error value and wraps any other value in an Error
carrying its String coercion. -/
theorem c9_mutation_facade {V : Type} :
    ((useMutationFacade V).mutate = (useMutationFacade V).mutateAsync) ∧
    ((useActionFacade V).mutate = (useActionFacade V).mutateAsync) ∧
    (∀ r : V, mutateAsyncRun (.ok r) =
      ({ data := some r, error := none, isLoading := false }, .ok r)) ∧
    (∀ v : JsValue, mutateAsyncRun (V := V) (.error v) =
      ({ data := none, error := some (normalizeError v), isLoading := false },
        .error (normalizeError v))) ∧
    (∀ r : V, executeAsyncRun (.ok r) =
      ({ data := some r, error := none, isLoading := false }, .ok r)) ∧
    (∀ v : JsValue, executeAsyncRun (V := V) (.error v) =
      ({ data := none, error := some (normalizeError v), isLoading := false },
        .error (normalizeError v))) ∧
    (∀ e : JsError, normalizeError (.errObj e) = e) ∧
    (∀ s : String, (normalizeError (.other s)).message = s) := by
  exact ⟨rfl, rfl, fun r => rfl, fun v => rfl, fun r => rfl, fun v => rfl,
    fun e => rfl, fun s => rfl⟩

/-- The boolean state invariant of the mutation machine is preserved by
every transition, hence by every transition sequence. -/
theorem runMutEvents_inv (s : MutationState V) (l : List (MutEvent V))
    (h : mutInvB s = true) : mutInvB (runMutEvents s l) = true := by
  induction l generalizing s with
  | nil => simpa [runMutEvents] using h
  | cons e t ih =>
    have h1 : runMutEvents s (e :: t) = runMutEvents (mutStep s e) t := rfl
    rw [h1]
    apply ih
    cases e <;> simp [mutStep, mutInvB]

/-- C10: along every transition sequence of the mutation or action facade
from its initial state, data and error are never both defined and neither
is defined while isLoading is true; starting a new call replaces the state
wholesale with only isLoading true, discarding any previous data or error;
each completed call also satisfies the invariant; and the action facade
runs the identical call function as the mutation facade. -/
theorem c10_state_invariant {V : Type} :
    (∀ (evs : List (MutEvent V)) (n : Nat),
      mutInvB (runMutEvents (initMut V) (evs.take n)) = true) ∧
    (∀ s : MutationState V,
      mutStep s .start =
        { data := none, error := none, isLoading := true }) ∧
    (∀ c : Except JsValue V, mutInvB (mutateAsyncRun c).1 = true) ∧
    (∀ c : Except JsValue V, executeAsyncRun c = mutateAsyncRun c) ∧
    mutInvB (initMut V) = true := by
  refine ⟨fun evs n => runMutEvents_inv _ _ rfl, fun s => rfl,
    fun c => ?_, fun c => ?_, rfl⟩
  · cases c <;> rfl
  · cases c <;> rfl

end ConvexSolid
